import Mathlib

/-!
Shallow embedding of the `nft-storage` Rust client library
(src/lib.rs, src/types.rs, src/error.rs) and proofs about it.

Modelling conventions:
* JSON values (`serde_json::Value`) are modelled by the inductive `Json`;
  numbers are modelled as integers (no claim involves floating point).
* Byte sequences (`Vec<u8>`) are modelled by `String` (`Bytes`); the
  operations treat file bytes opaquely, and `serde_json::to_vec` is
  modelled by the compact serializer `Json.serialize`.
* The network is modelled by a trace of `NetEvent`s consumed in order:
  one event per HTTP request sent.  `NetEvent.sendFailure` models a
  transport error raised by `send()`; `NetEvent.response r` models a
  received `reqwest::Response` with status code `r.status` and a body
  that either parses as JSON (`some j`, the result of
  `Response::json::<serde_json::Value>()`) or does not (`none`, in which
  case `Response::json` fails with a `reqwest::Error` decode error).
  An exhausted trace behaves like a transport failure.
* Each operation returns a `RunResult`: the client handle after the call
  (the methods take `&self`), the list of HTTP requests issued, the
  `Result` value returned to the caller, and the rest of the trace.
-/

/-- Json model of `serde_json::Value`.  Object fields are kept as an
association list; `serde_json`'s default map type is a `BTreeMap`, so
objects built by the `json!` macro are ordered by key, and the helper
constructors below list their fields in sorted key order. -/
inductive Json where
  | null : Json
  | bool (b : Bool) : Json
  | num (n : Int) : Json
  | str (s : String) : Json
  | arr (elems : List Json) : Json
  | obj (fields : List (String × Json)) : Json

/-- Lookup of a field in a JSON object's field list (first occurrence). -/
def lookupField : List (String × Json) → String → Option Json
  | [], _ => none
  | (k, v) :: rest, key => if k = key then some v else lookupField rest key

/-- Lookup of a field of a JSON value; `none` on non-objects. -/
def jsonLookup : Json → String → Option Json
  | .obj fields, key => lookupField fields key
  | _, _ => none

/-- Hex digit table used by `serde_json` for `\u00XX` escapes. -/
def hexDigit (n : Nat) : Char :=
  if n = 0 then '0' else if n = 1 then '1' else if n = 2 then '2'
  else if n = 3 then '3' else if n = 4 then '4' else if n = 5 then '5'
  else if n = 6 then '6' else if n = 7 then '7' else if n = 8 then '8'
  else if n = 9 then '9' else if n = 10 then 'a' else if n = 11 then 'b'
  else if n = 12 then 'c' else if n = 13 then 'd' else if n = 14 then 'e'
  else 'f'

/-- String escaping performed by `serde_json`'s compact serializer. -/
def escapeChar (ch : Char) : String :=
  if ch = '"' then "\\\""
  else if ch = '\\' then "\\\\"
  else if ch.toNat = 8 then "\\b"
  else if ch = '\t' then "\\t"
  else if ch = '\n' then "\\n"
  else if ch.toNat = 12 then "\\f"
  else if ch = '\r' then "\\r"
  else if ch.toNat < 32 then
    "\\u00" ++ String.singleton (hexDigit (ch.toNat / 16))
      ++ String.singleton (hexDigit (ch.toNat % 16))
  else String.singleton ch

/-- Escape every character of a string as `serde_json` does. -/
def escapeString (s : String) : String :=
  String.join (s.data.map escapeChar)

mutual

/-- Compact serialization of a JSON value, as produced by
`serde_json::to_vec` / `to_string` (no whitespace). -/
def Json.serialize : Json → String
  | .null => "null"
  | .bool b => cond b "true" "false"
  | .num n => toString n
  | .str s => "\"" ++ escapeString s ++ "\""
  | .arr elems => "[" ++ serializeElems elems ++ "]"
  | .obj fields => "\x7b" ++ serializeFields fields ++ "\x7d"

/-- Comma-separated serialization of JSON array elements. -/
def serializeElems : List Json → String
  | [] => ""
  | [x] => Json.serialize x
  | x :: y :: rest => Json.serialize x ++ "," ++ serializeElems (y :: rest)

/-- Comma-separated serialization of JSON object fields. -/
def serializeFields : List (String × Json) → String
  | [] => ""
  | [(k, v)] => "\"" ++ escapeString k ++ "\":" ++ Json.serialize v
  | (k, v) :: y :: rest =>
      "\"" ++ escapeString k ++ "\":" ++ Json.serialize v ++ "," ++ serializeFields (y :: rest)

end

/-- Byte sequences (`Vec<u8>`); modelled as strings, see header. -/
abbrev Bytes := String

/-- Model of `serde_json::to_vec` (which never fails on these values). -/
def serdeJsonToVec (j : Json) : Bytes := Json.serialize j

/-!
Typed response records from `src/types.rs`.  A record derives
`Deserialize` (modelled by a `decode` function) and `Default` (modelled
by a `default` constant).  Only `ListNftResponse`, `Value`,
`CheckNFTValue`, `Pin` and `Files` additionally carry the container
attribute `#[serde(default)]`; for those, a field absent from the JSON
object takes its default instead of failing the decode.
-/

/-- File information (`struct Files`). -/
structure Files where
  name : String
  file_type : String

/-- Filecoin pin data (`struct Pin`).  `size` is an `i32`, modelled as an
integer (no claim exercises its range). -/
structure Pin where
  cid : String
  status : String
  created : String
  size : Int

/-- Filecoin deals data (`struct Deals`). -/
structure Deals where
  batch_root_cid : String
  last_changed : String
  miner : String
  piece_cid : String
  status : String
  status_text : String
  chain_deal_id : Int
  deal_activation : String
  deal_expiration : String
  data_model_selector : String

/-- Main object holding response data (`struct Value` of `types.rs`;
distinct from `serde_json::Value`, which is modelled by `Json`). -/
structure Value where
  cid : String
  size : Int
  created : String
  file_type : String
  scope : String
  pin : Pin
  files : List Files
  deals : List Deals
  link : List String

/-- Data about a queried nft for the existence check (`struct CheckNFTValue`). -/
structure CheckNFTValue where
  cid : String
  pin : Pin
  deals : List Deals

/-- List response (`struct ListNftResponse`). -/
structure ListNftResponse where
  ok : Bool
  value : List Value

/-- Store response (`struct StoreNftResponse`). -/
structure StoreNftResponse where
  ok : Bool
  value : Value

/-- Get response (`struct GetNftResponse`). -/
structure GetNftResponse where
  ok : Bool
  value : Value

/-- Delete response (`struct DeleteNftResponse`). -/
structure DeleteNftResponse where
  ok : Bool

/-- Existence check response (`struct CheckCidNftResponse`). -/
structure CheckCidNftResponse where
  ok : Bool
  value : CheckNFTValue

/-- Derived `Default` for `Files`: empty strings. -/
def Files.default : Files := ⟨"", ""⟩

/-- Derived `Default` for `Pin`. -/
def Pin.default : Pin := ⟨"", "", "", 0⟩

/-- Derived `Default` for `Deals`. -/
def Deals.default : Deals := ⟨"", "", "", "", "", "", 0, "", "", ""⟩

/-- Derived `Default` for `Value`. -/
def Value.default : Value := ⟨"", 0, "", "", "", Pin.default, [], [], []⟩

/-- Derived `Default` for `CheckNFTValue`. -/
def CheckNFTValue.default : CheckNFTValue := ⟨"", Pin.default, []⟩

/-!
Serde decoding.  `serde_json::from_value::<T>` either yields a `T` or a
`serde_json::Error`; we model it as an `Option` (`none` = decode error).
Primitive fields decode only from the matching JSON shape; unknown
object keys are ignored (serde's default behaviour).
-/

/-- Decode a JSON value as a Rust `bool` field. -/
def decodeBool : Json → Option Bool
  | .bool b => some b
  | _ => none

/-- Decode a JSON value as a Rust `String` field. -/
def decodeString : Json → Option String
  | .str s => some s
  | _ => none

/-- Decode a JSON value as a Rust `i32` field. -/
def decodeI32 : Json → Option Int
  | .num n => if -(2 ^ 31) ≤ n ∧ n < 2 ^ 31 then some n else none
  | _ => none

/-- Decode a JSON array as a Rust `Vec` field. -/
def decodeList (d : Json → Option α) : Json → Option (List α)
  | .arr elems => elems.mapM d
  | _ => none

/-- Required struct field: absent fields make the decode fail
(serde's "missing field" error, for containers without `#[serde(default)]`). -/
def reqField (fields : List (String × Json)) (key : String) (d : Json → Option α) : Option α :=
  match lookupField fields key with
  | some v => d v
  | none => none

/-- Defaulted struct field: with the container attribute `#[serde(default)]`,
an absent field takes the `Default` value; a present field must still
decode to the right shape. -/
def optField (fields : List (String × Json)) (key : String) (d : Json → Option α)
    (dft : α) : Option α :=
  match lookupField fields key with
  | some v => d v
  | none => some dft

/-- Deserialize `Files` (container has `#[serde(default)]`). -/
def Files.decode : Json → Option Files
  | .obj fields => do
    let name ← optField fields "name" decodeString ""
    let file_type ← optField fields "file_type" decodeString ""
    some ⟨name, file_type⟩
  | _ => none

/-- Deserialize `Pin` (container has `#[serde(default)]`). -/
def Pin.decode : Json → Option Pin
  | .obj fields => do
    let cid ← optField fields "cid" decodeString ""
    let status ← optField fields "status" decodeString ""
    let created ← optField fields "created" decodeString ""
    let size ← optField fields "size" decodeI32 0
    some ⟨cid, status, created, size⟩
  | _ => none

/-- Deserialize `Deals`: no `#[serde(default)]` on the container, so every
field is required; the JSON keys follow the `#[serde(rename = ...)]`
attributes of the source. -/
def Deals.decode : Json → Option Deals
  | .obj fields => do
    let batch_root_cid ← reqField fields "batchRootCid" decodeString
    let last_changed ← reqField fields "lastChanged" decodeString
    let miner ← reqField fields "miner" decodeString
    let piece_cid ← reqField fields "pieceCid" decodeString
    let status ← reqField fields "status" decodeString
    let status_text ← reqField fields "statusText" decodeString
    let chain_deal_id ← reqField fields "chainDealID" decodeI32
    let deal_activation ← reqField fields "dealActivation" decodeString
    let deal_expiration ← reqField fields "dealExpiration" decodeString
    let data_model_selector ← reqField fields "datamodelSelector" decodeString
    some ⟨batch_root_cid, last_changed, miner, piece_cid, status, status_text,
          chain_deal_id, deal_activation, deal_expiration, data_model_selector⟩
  | _ => none

/-- Deserialize `Value` (container has `#[serde(default)]`). -/
def Value.decode : Json → Option Value
  | .obj fields => do
    let cid ← optField fields "cid" decodeString ""
    let size ← optField fields "size" decodeI32 0
    let created ← optField fields "created" decodeString ""
    let file_type ← optField fields "file_type" decodeString ""
    let scope ← optField fields "scope" decodeString ""
    let pin ← optField fields "pin" Pin.decode Pin.default
    let files ← optField fields "files" (decodeList Files.decode) []
    let deals ← optField fields "deals" (decodeList Deals.decode) []
    let link ← optField fields "link" (decodeList decodeString) []
    some ⟨cid, size, created, file_type, scope, pin, files, deals, link⟩
  | _ => none

/-- Deserialize `CheckNFTValue` (container has `#[serde(default)]`). -/
def CheckNFTValue.decode : Json → Option CheckNFTValue
  | .obj fields => do
    let cid ← optField fields "cid" decodeString ""
    let pin ← optField fields "pin" Pin.decode Pin.default
    let deals ← optField fields "deals" (decodeList Deals.decode) []
    some ⟨cid, pin, deals⟩
  | _ => none

/-- Deserialize `ListNftResponse` (container has `#[serde(default)]`). -/
def ListNftResponse.decode : Json → Option ListNftResponse
  | .obj fields => do
    let ok ← optField fields "ok" decodeBool false
    let value ← optField fields "value" (decodeList Value.decode) []
    some ⟨ok, value⟩
  | _ => none

/-- Deserialize `StoreNftResponse`: no `#[serde(default)]`, fields required. -/
def StoreNftResponse.decode : Json → Option StoreNftResponse
  | .obj fields => do
    let ok ← reqField fields "ok" decodeBool
    let value ← reqField fields "value" Value.decode
    some ⟨ok, value⟩
  | _ => none

/-- Deserialize `GetNftResponse`: no `#[serde(default)]`, fields required. -/
def GetNftResponse.decode : Json → Option GetNftResponse
  | .obj fields => do
    let ok ← reqField fields "ok" decodeBool
    let value ← reqField fields "value" Value.decode
    some ⟨ok, value⟩
  | _ => none

/-- Deserialize `DeleteNftResponse`: no `#[serde(default)]`, field required. -/
def DeleteNftResponse.decode : Json → Option DeleteNftResponse
  | .obj fields => do
    let ok ← reqField fields "ok" decodeBool
    some ⟨ok⟩
  | _ => none

/-- Deserialize `CheckCidNftResponse`: no `#[serde(default)]`, fields required. -/
def CheckCidNftResponse.decode : Json → Option CheckCidNftResponse
  | .obj fields => do
    let ok ← reqField fields "ok" decodeBool
    let value ← reqField fields "value" CheckNFTValue.decode
    some ⟨ok, value⟩
  | _ => none

/-!
Error model from `src/error.rs` and the HTTP/network model.
-/

/-- Errors of the underlying HTTP library (`reqwest::Error`) as this
client can encounter them: a transport failure raised by `send()`, or a
body-decode failure raised by `Response::json::<serde_json::Value>()`
when the body is not well-formed JSON. -/
inductive ReqwestError where
  | sendError : ReqwestError
  | decodeError : ReqwestError

/-- Error of `serde_json::from_value` (the only `serde_json::Error` the
client produces on the decode path). -/
inductive SerdeJsonError where
  | dataError : SerdeJsonError

/-- The library error type (`enum NFTStorageError`).  The `#[from]`
conversions of the source map `reqwest::Error` to `InvalidRequest`,
`serde_json::Error` to `InvalidJson`; `ApiError` carries the parsed
JSON body of a non-2xx response. -/
inductive NFTStorageError where
  | InvalidRequest (e : ReqwestError)
  | InvalidJson (e : SerdeJsonError)
  | ApiError (v : Json)
  | AnyhowError

/-- Model of `reqwest::Client`: the client object is opaque to this
library; an id stands in for the instance identity. -/
structure Client where
  id : Nat

/-- Model of `Client::new()`. -/
def Client.new : Client := ⟨0⟩

/-- The client handle (`struct NftStorage`). -/
structure NftStorage where
  client : Client
  url : String
  token : String

/-- Model of `NftStorage::new`. -/
def NftStorage.new (url token : String) : NftStorage :=
  ⟨Client.new, url, token⟩

/-- Request body: a raw byte body (`.body(file)`), a multipart form
(`.multipart(form)`) whose parts are pairs of submitted file name and
bytes (every part uses the constant form-field name "file"), or no
body. -/
inductive ReqBody where
  | raw (bytes : Bytes)
  | multipart (parts : List (String × Bytes))
  | empty

/-- An HTTP request as this client builds it: method, full URL, the
bearer token attached by `bearer_auth`, and the body. -/
structure HttpRequest where
  method : String
  url : String
  bearer : String
  body : ReqBody

/-- An HTTP response: numeric status code, and the outcome of
`Response::json::<serde_json::Value>()` on its body (`some j` when the
body is well-formed JSON parsing to `j`, `none` otherwise). -/
structure HttpResponse where
  status : Nat
  body : Option Json

/-- One network interaction: either the `send()` future fails with a
transport error, or a response arrives. -/
inductive NetEvent where
  | sendFailure : NetEvent
  | response (r : HttpResponse) : NetEvent

/-- Model of `reqwest::StatusCode::is_success`: 2xx range. -/
def statusIsSuccess (s : Nat) : Bool :=
  decide (200 ≤ s) && decide (s ≤ 299)

/-- Outcome of one operation: the client handle after the call (all
methods take `&self`), the requests issued, the value returned to the
caller, and the remaining network trace. -/
structure RunResult (α : Type) where
  handle : NftStorage
  reqs : List HttpRequest
  res : Except NFTStorageError α
  rest : List NetEvent

/-- Consume the next network event of the trace; an exhausted trace
behaves like a transport failure. -/
def takeEvent : List NetEvent → NetEvent × List NetEvent
  | [] => (NetEvent.sendFailure, [])
  | e :: rest => (e, rest)

/-- The shared response-handling pattern of every operation:
`let status = response.status().is_success();`
`let body = response.json::<Value>().await?;`
then a branch returning `Err(ApiError(body))` on a non-2xx status and
`serde_json::from_value(body)?` otherwise. -/
def responseResult (d : Json → Option α) : NetEvent → Except NFTStorageError α
  | .sendFailure => .error (.InvalidRequest .sendError)
  | .response r =>
    let success := statusIsSuccess r.status
    match r.body with
    | none => .error (.InvalidRequest .decodeError)
    | some j =>
      if success then
        match d j with
        | some v => .ok v
        | none => .error (.InvalidJson .dataError)
      else .error (.ApiError j)

/-- Send one request and handle its response. -/
def runRequest (c : NftStorage) (req : HttpRequest) (d : Json → Option α)
    (trace : List NetEvent) : RunResult α :=
  ⟨c, [req], responseResult d (takeEvent trace).1, (takeEvent trace).2⟩

/-!
The operations of `impl NftStorage` (src/lib.rs).
-/

/-- Predicate of the `only_metadata` filter of `list_all_stored_nft`:
`f.files.get(0).is_some() && f.files[0].name == "metadata.json"`. -/
def isMetadataEntry (f : Value) : Bool :=
  match f.files.get? 0 with
  | some file0 => file0.name == "metadata.json"
  | none => false

/-- Convenience links added to a metadata entry by `list_all_stored_nft`
when `only_metadata` is set. -/
def withMetadataLinks (f : Value) : Value :=
  let link_1 := "https://" ++ f.cid ++ ".ipfs.dweb.link/metadata.json"
  let link_2 := "https://ipfs.io/ipfs/" ++ f.cid ++ "/metadata.json"
  let link_3 := "ipfs://" ++ f.cid ++ "/metadata.json"
  { f with link := [link_1, link_2, link_3] }

/-- Convenience links added to an entry by `list_all_stored_nft` (without
the filter) and by `get_nft`. -/
def withPlainLinks (f : Value) : Value :=
  let link_1 := "https://" ++ f.cid ++ ".ipfs.dweb.link"
  let link_2 := "https://ipfs.io/ipfs/" ++ f.cid
  let link_3 := "ipfs://" ++ f.cid
  { f with link := [link_1, link_2, link_3] }

/-- Method `list_all_stored_nft`. -/
def list_all_stored_nft (c : NftStorage) (before limit : Option String)
    (only_metadata : Bool) (trace : List NetEvent) : RunResult ListNftResponse :=
  let beforeStr := match before with | some value => value | none => ""
  let limitStr := match limit with | some value => value | none => ""
  let url := c.url ++ "/?before=" ++ beforeStr ++ "&limit=" ++ limitStr
  let base := runRequest c ⟨"GET", url, c.token, .empty⟩ ListNftResponse.decode trace
  match base.res with
  | .error _ => base
  | .ok body =>
    if only_metadata then
      { base with
        res := .ok { body with
          value := (body.value.filter isMetadataEntry).map withMetadataLinks } }
    else
      { base with
        res := .ok { body with value := body.value.map withPlainLinks } }

/-- Method `upload_file`. -/
def upload_file (c : NftStorage) (file : Bytes) (trace : List NetEvent) :
    RunResult StoreNftResponse :=
  runRequest c ⟨"POST", c.url ++ "/upload", c.token, .raw file⟩
    StoreNftResponse.decode trace

/-- Method `delete_nft`. -/
def delete_nft (c : NftStorage) (cid : String) (trace : List NetEvent) :
    RunResult DeleteNftResponse :=
  runRequest c ⟨"DELETE", c.url ++ "/" ++ cid, c.token, .empty⟩
    DeleteNftResponse.decode trace

/-- Method `get_nft`: fetch by cid, then overwrite `body.value.link` with
the three derived links. -/
def get_nft (c : NftStorage) (cid : String) (trace : List NetEvent) :
    RunResult GetNftResponse :=
  let base := runRequest c ⟨"GET", c.url ++ "/" ++ cid, c.token, .empty⟩
    GetNftResponse.decode trace
  match base.res with
  | .error _ => base
  | .ok body => { base with res := .ok { body with value := withPlainLinks body.value } }

/-- Method `check_nft`. -/
def check_nft (c : NftStorage) (cid : String) (trace : List NetEvent) :
    RunResult CheckCidNftResponse :=
  runRequest c ⟨"GET", c.url ++ "/check/" ++ cid, c.token, .empty⟩
    CheckCidNftResponse.decode trace

/-- The form-building loop of `upload_file_in_directory`:
`for (index, _) in files.iter().enumerate()` builds a part from
`files[index]` and `file_names[index]`.  The index walks both sequences
in lockstep; `files[index]` is always in bounds, while `file_names[index]`
has no bounds check — `none` models the panic raised when `file_names`
is shorter than `files`. -/
def buildForm : List Bytes → List String → Option (List (String × Bytes))
  | [], _ => some []
  | f :: fs, names =>
    match names with
    | [] => none
    | n :: ns => (buildForm fs ns).map (fun parts => (n, f) :: parts)

/-- Method `upload_file_in_directory`; `none` models a panic during form
building. -/
def upload_file_in_directory (c : NftStorage) (files : List Bytes)
    (file_names : List String) (trace : List NetEvent) :
    Option (RunResult StoreNftResponse) :=
  match buildForm files file_names with
  | none => none
  | some parts =>
    some (runRequest c ⟨"POST", c.url ++ "/upload", c.token, .multipart parts⟩
      StoreNftResponse.decode trace)

/-- The metadata object built by `store_nft` with the `json!` macro from
`name`, `description` and the cid of the first upload; fields listed in
key order (serde_json's `BTreeMap`). -/
def storeNftMetadata (nft_name description cid : String) : Json :=
  .obj [("description", .str description), ("files", .str cid), ("name", .str nft_name)]

/-- Method `store_nft`: upload the file, then upload the serialized
metadata object referencing the first upload's cid; the second upload's
response is returned. -/
def store_nft (c : NftStorage) (file : Bytes) (nft_name description : String)
    (trace : List NetEvent) : RunResult StoreNftResponse :=
  let r1 := upload_file c file trace
  match r1.res with
  | .error e => ⟨r1.handle, r1.reqs, .error e, r1.rest⟩
  | .ok response =>
    let cid := response.value.cid
    let metadata := storeNftMetadata nft_name description cid
    let metadata_json_bytes := serdeJsonToVec metadata
    let r2 := upload_file r1.handle metadata_json_bytes r1.rest
    ⟨r2.handle, r1.reqs ++ r2.reqs, r2.res, r2.rest⟩

/-- The metadata object built by `store_nft_in_directory`, whose "files"
field is the array of `ipfs://<cid>/<file name>` paths; fields listed in
key order (serde_json's `BTreeMap`). -/
def storeNftDirMetadata (nft_name description : String) (file_cids : List String) : Json :=
  .obj [("description", .str description), ("files", .arr (file_cids.map Json.str)),
        ("name", .str nft_name)]

/-- Method `store_nft_in_directory`: upload the files as a directory,
then upload a single `metadata.json` file (again as a directory upload)
listing `ipfs://<cid>/<name>` for each file of the first response;
`none` models a panic of `upload_file_in_directory`. -/
def store_nft_in_directory (c : NftStorage) (files : List Bytes)
    (file_names : List String) (nft_name description : String)
    (trace : List NetEvent) : Option (RunResult StoreNftResponse) :=
  match upload_file_in_directory c files file_names trace with
  | none => none
  | some r1 =>
    match r1.res with
    | .error e => some ⟨r1.handle, r1.reqs, .error e, r1.rest⟩
    | .ok response =>
      let value := response.value.files
      let cid := response.value.cid
      let file_names2 := value.map (fun f => f.name)
      let file_cids := file_names2.map (fun f => "ipfs://" ++ cid ++ "/" ++ f)
      let metadata := storeNftDirMetadata nft_name description file_cids
      let metadata_json_bytes := serdeJsonToVec metadata
      match upload_file_in_directory r1.handle [metadata_json_bytes]
        ["metadata.json"] r1.rest with
      | none => none
      | some r2 => some ⟨r2.handle, r1.reqs ++ r2.reqs, r2.res, r2.rest⟩

/-- The inner `for` loop of `delete_all_nft`: delete each listed entry by
its cid, propagating the first error (`?`); the `println!` calls have no
effect in the model. -/
def delete_nft_each (c : NftStorage) (entries : List Value)
    (trace : List NetEvent) : RunResult Unit :=
  match entries with
  | [] => ⟨c, [], .ok (), trace⟩
  | e :: restEntries =>
    let r := delete_nft c e.cid trace
    match r.res with
    | .error err => ⟨r.handle, r.reqs, .error err, r.rest⟩
    | .ok _ =>
      let k := delete_nft_each r.handle restEntries r.rest
      ⟨k.handle, r.reqs ++ k.reqs, k.res, k.rest⟩

/-- The `loop` of `delete_all_nft`, structured on a fuel argument so that
the definition computes; every iteration consumes at least one network
event, so with fuel above the trace length the fuel case is never
reached (theorem `delete_all_go_stable`). -/
def delete_all_go (c : NftStorage) (trace : List NetEvent) :
    Nat → RunResult DeleteNftResponse
  | 0 => ⟨c, [], .error (.InvalidRequest .sendError), trace⟩
  | fuel + 1 =>
    let r := list_all_stored_nft c none (some "100") false trace
    match r.res with
    | .error e => ⟨r.handle, r.reqs, .error e, r.rest⟩
    | .ok nfts =>
      if nfts.ok && decide (nfts.value.length ≤ 0) then
        ⟨r.handle, r.reqs, .ok ⟨true⟩, r.rest⟩
      else
        let d := delete_nft_each r.handle nfts.value r.rest
        match d.res with
        | .error e => ⟨d.handle, r.reqs ++ d.reqs, .error e, d.rest⟩
        | .ok _ =>
          let k := delete_all_go d.handle d.rest fuel
          ⟨k.handle, r.reqs ++ d.reqs ++ k.reqs, k.res, k.rest⟩

/-- Method `delete_all_nft`: repeatedly list the first 100 nfts and delete
each returned entry, breaking when a listed page has `ok` set and no
entries, finally returning the locally built `DeleteNftResponse { ok: true }`. -/
def delete_all_nft (c : NftStorage) (trace : List NetEvent) :
    RunResult DeleteNftResponse :=
  delete_all_go c trace (trace.length + 1)

/-!
Helper definitions used by the statements below.
-/

/-- The request built by `list_all_stored_nft` for given options. -/
def listRequestOf (c : NftStorage) (before limit : Option String) : HttpRequest :=
  ⟨"GET",
   c.url ++ "/?before=" ++ (match before with | some value => value | none => "")
     ++ "&limit=" ++ (match limit with | some value => value | none => ""),
   c.token, .empty⟩

/-- The request built by `delete_nft`. -/
def deleteRequestOf (c : NftStorage) (cid : String) : HttpRequest :=
  ⟨"DELETE", c.url ++ "/" ++ cid, c.token, .empty⟩

/-- Whether a call result is the `ApiError` variant. -/
def isApiError : Except NFTStorageError α → Bool
  | .error (.ApiError _) => true
  | _ => false

/-- Whether a call result is the `InvalidJson` variant. -/
def isInvalidJson : Except NFTStorageError α → Bool
  | .error (.InvalidJson _) => true
  | _ => false

/-- A sample client handle for concrete instantiations. -/
def c0 : NftStorage := NftStorage.new "https://api.nft.storage" "tok"

/-!
Basic lemmas about the request runner.
-/

theorem takeEvent_snd : ∀ t : List NetEvent, (takeEvent t).2 = t.tail
  | [] => rfl
  | _ :: _ => rfl

theorem runRequest_handle (c : NftStorage) (req : HttpRequest) (d : Json → Option α)
    (t : List NetEvent) : (runRequest c req d t).handle = c := rfl

theorem runRequest_reqs (c : NftStorage) (req : HttpRequest) (d : Json → Option α)
    (t : List NetEvent) : (runRequest c req d t).reqs = [req] := rfl

theorem runRequest_rest (c : NftStorage) (req : HttpRequest) (d : Json → Option α)
    (t : List NetEvent) : (runRequest c req d t).rest = t.tail := by
  simp [runRequest, takeEvent_snd]

theorem runRequest_res (c : NftStorage) (req : HttpRequest) (d : Json → Option α)
    (t : List NetEvent) :
    (runRequest c req d t).res = responseResult d (takeEvent t).1 := rfl

theorem responseResult_apiError (d : Json → Option α) (s : Nat) (j : Json)
    (h : statusIsSuccess s = false) :
    responseResult d (.response ⟨s, some j⟩) = .error (.ApiError j) := by
  simp [responseResult, h]

theorem responseResult_invalidJson (d : Json → Option α) (s : Nat) (j : Json)
    (h : statusIsSuccess s = true) (hd : d j = none) :
    responseResult d (.response ⟨s, some j⟩) = .error (.InvalidJson .dataError) := by
  simp [responseResult, h, hd]

theorem responseResult_ok (d : Json → Option α) (s : Nat) (j : Json) (v : α)
    (h : statusIsSuccess s = true) (hd : d j = some v) :
    responseResult d (.response ⟨s, some j⟩) = .ok v := by
  simp [responseResult, h, hd]

theorem responseResult_noJson (d : Json → Option α) (s : Nat) :
    responseResult d (.response ⟨s, none⟩) = .error (.InvalidRequest .decodeError) := rfl

theorem responseResult_sendFailure (d : Json → Option α) :
    responseResult d .sendFailure = .error (.InvalidRequest .sendError) := rfl

/-!
Shape lemmas for `list_all_stored_nft` and `get_nft`.
-/

theorem list_res_eq (c : NftStorage) (b l : Option String) (m : Bool) (t : List NetEvent) :
    (list_all_stored_nft c b l m t).res =
      match responseResult ListNftResponse.decode (takeEvent t).1 with
      | .error e => .error e
      | .ok body =>
        .ok (if m then
              ⟨body.ok, (body.value.filter isMetadataEntry).map withMetadataLinks⟩
             else ⟨body.ok, body.value.map withPlainLinks⟩) := by
  simp only [list_all_stored_nft, runRequest]
  rcases hr : responseResult ListNftResponse.decode (takeEvent t).1 with e | body
  · simp [hr]
  · cases m <;> simp [hr]

theorem list_handle (c : NftStorage) (b l : Option String) (m : Bool) (t : List NetEvent) :
    (list_all_stored_nft c b l m t).handle = c := by
  simp only [list_all_stored_nft, runRequest]
  split
  · rfl
  · split <;> rfl

theorem list_reqs (c : NftStorage) (b l : Option String) (m : Bool) (t : List NetEvent) :
    (list_all_stored_nft c b l m t).reqs = [listRequestOf c b l] := by
  simp only [list_all_stored_nft, runRequest, listRequestOf]
  split
  · rfl
  · split <;> rfl

theorem list_rest (c : NftStorage) (b l : Option String) (m : Bool) (t : List NetEvent) :
    (list_all_stored_nft c b l m t).rest = t.tail := by
  simp only [list_all_stored_nft, runRequest]
  split
  · exact takeEvent_snd t
  · split <;> exact takeEvent_snd t

theorem get_res_eq (c : NftStorage) (cid : String) (t : List NetEvent) :
    (get_nft c cid t).res =
      match responseResult GetNftResponse.decode (takeEvent t).1 with
      | .error e => .error e
      | .ok body => .ok ⟨body.ok, withPlainLinks body.value⟩ := by
  simp only [get_nft, runRequest]
  rcases hr : responseResult GetNftResponse.decode (takeEvent t).1 with e | body <;> simp [hr]

theorem get_handle (c : NftStorage) (cid : String) (t : List NetEvent) :
    (get_nft c cid t).handle = c := by
  simp only [get_nft, runRequest]
  split <;> rfl

/-!
Lemmas about the directory-form building and the delete-all loop.
-/

theorem buildForm_none_of_lt : ∀ (files : List Bytes) (names : List String),
    names.length < files.length → buildForm files names = none
  | [], names, h => absurd h (by simp)
  | f :: fs, [], _ => rfl
  | f :: fs, n :: ns, h => by
    have hlt : ns.length < fs.length := by simpa using Nat.lt_of_succ_lt_succ (by simpa using h)
    simp [buildForm, buildForm_none_of_lt fs ns hlt]

theorem buildForm_isSome_of_le : ∀ (files : List Bytes) (names : List String),
    files.length ≤ names.length → (buildForm files names).isSome = true
  | [], _, _ => rfl
  | f :: fs, [], h => absurd h (by simp)
  | f :: fs, n :: ns, h => by
    have hle : fs.length ≤ ns.length := by simpa using Nat.le_of_succ_le_succ (by simpa using h)
    have ih := buildForm_isSome_of_le fs ns hle
    rcases hb : buildForm fs ns with _ | parts
    · rw [hb] at ih; simp at ih
    · simp [buildForm, hb]

theorem buildForm_none_iff (files : List Bytes) (names : List String) :
    buildForm files names = none ↔ names.length < files.length := by
  constructor
  · intro h
    by_contra hlt
    have hle : files.length ≤ names.length := by omega
    have := buildForm_isSome_of_le files names hle
    rw [h] at this
    simp at this
  · exact buildForm_none_of_lt files names

theorem delete_nft_each_cons (c : NftStorage) (e : Value) (es : List Value)
    (t : List NetEvent) :
    delete_nft_each c (e :: es) t =
      match responseResult DeleteNftResponse.decode (takeEvent t).1 with
      | .error err => ⟨c, [deleteRequestOf c e.cid], .error err, t.tail⟩
      | .ok _ => ⟨(delete_nft_each c es t.tail).handle,
                  deleteRequestOf c e.cid :: (delete_nft_each c es t.tail).reqs,
                  (delete_nft_each c es t.tail).res,
                  (delete_nft_each c es t.tail).rest⟩ := by
  simp only [delete_nft_each, delete_nft, runRequest, deleteRequestOf, takeEvent_snd]
  rcases responseResult DeleteNftResponse.decode (takeEvent t).1 with err | v <;>
    simp [takeEvent_snd]

theorem delete_nft_each_handle : ∀ (es : List Value) (c : NftStorage) (t : List NetEvent),
    (delete_nft_each c es t).handle = c
  | [], c, t => rfl
  | e :: es, c, t => by
    rw [delete_nft_each_cons]
    rcases hr : responseResult DeleteNftResponse.decode (takeEvent t).1 with err | v
    · rfl
    · exact delete_nft_each_handle es c t.tail

theorem delete_nft_each_rest_le : ∀ (es : List Value) (c : NftStorage) (t : List NetEvent),
    (delete_nft_each c es t).rest.length ≤ t.length
  | [], c, t => Nat.le_refl _
  | e :: es, c, t => by
    rw [delete_nft_each_cons]
    rcases hr : responseResult DeleteNftResponse.decode (takeEvent t).1 with err | v
    · simp only [List.length_tail]
      omega
    · have h1 := delete_nft_each_rest_le es c t.tail
      have h2 : t.tail.length ≤ t.length := by
        simp only [List.length_tail]
        omega
      exact Nat.le_trans h1 h2

theorem delete_nft_each_ok_reqs : ∀ (es : List Value) (c : NftStorage) (t : List NetEvent)
    (u : Unit), (delete_nft_each c es t).res = .ok u →
    (delete_nft_each c es t).reqs = es.map (fun e => deleteRequestOf c e.cid)
  | [], c, t, u, _ => rfl
  | e :: es, c, t, u, h => by
    rw [delete_nft_each_cons] at h ⊢
    rcases hr : responseResult DeleteNftResponse.decode (takeEvent t).1 with err | v
    · rw [hr] at h
      exact absurd h (by simp)
    · rw [hr] at h
      have ih := delete_nft_each_ok_reqs es c t.tail u (by simpa using h)
      simp [ih]

theorem list_ok_ne_nil (c : NftStorage) (b l : Option String) (m : Bool) (t : List NetEvent)
    (v : ListNftResponse) (h : (list_all_stored_nft c b l m t).res = .ok v) : t ≠ [] := by
  intro ht
  subst ht
  rw [list_res_eq] at h
  simp [takeEvent, responseResult] at h

theorem delete_all_go_handle : ∀ (fuel : Nat) (c : NftStorage) (t : List NetEvent),
    (delete_all_go c t fuel).handle = c
  | 0, c, t => rfl
  | fuel + 1, c, t => by
    simp only [delete_all_go]
    split
    · simp [list_handle]
    · split
      · simp [list_handle]
      · split
        · simp [delete_nft_each_handle, list_handle]
        · simp [delete_all_go_handle fuel, delete_nft_each_handle, list_handle]

theorem delete_all_go_ok : ∀ (fuel : Nat) (c : NftStorage) (t : List NetEvent)
    (r : DeleteNftResponse), (delete_all_go c t fuel).res = .ok r → r = ⟨true⟩
  | 0, c, t, r, h => absurd h (by simp [delete_all_go])
  | fuel + 1, c, t, r, h => by
    simp only [delete_all_go] at h
    split at h
    · simp at h
    · split at h
      · simp at h
        exact h.symm
      · split at h
        · simp at h
        · exact delete_all_go_ok fuel _ _ r (by simpa using h)

theorem delete_all_go_stable : ∀ (fuel₁ : Nat) (c : NftStorage) (t : List NetEvent)
    (fuel₂ : Nat), t.length < fuel₁ → t.length < fuel₂ →
    delete_all_go c t fuel₁ = delete_all_go c t fuel₂
  | 0, _, t, _, h₁, _ => absurd h₁ (by omega)
  | _ + 1, _, t, 0, _, h₂ => absurd h₂ (by omega)
  | fuel₁ + 1, c, t, fuel₂ + 1, h₁, h₂ => by
    simp only [delete_all_go]
    split
    · rfl
    · rename_i nfts heq
      split
      · rfl
      · split
        · rfl
        · have hne : t ≠ [] := list_ok_ne_nil c none (some "100") false t nfts heq
          have hlen : (delete_nft_each (list_all_stored_nft c none (some "100") false t).handle
              nfts.value
              (list_all_stored_nft c none (some "100") false t).rest).rest.length < t.length := by
            rw [list_rest]
            have hd1 := delete_nft_each_rest_le nfts.value
              (list_all_stored_nft c none (some "100") false t).handle t.tail
            cases t with
            | nil => exact absurd rfl hne
            | cons a tl =>
              simp only [List.tail_cons] at hd1 ⊢
              simp only [List.length_cons]
              omega
          rw [delete_all_go_stable fuel₁
            (delete_nft_each (list_all_stored_nft c none (some "100") false t).handle
              nfts.value (list_all_stored_nft c none (some "100") false t).rest).handle
            (delete_nft_each (list_all_stored_nft c none (some "100") false t).handle
              nfts.value (list_all_stored_nft c none (some "100") false t).rest).rest
            fuel₂ (by omega) (by omega)]

/-!
Concrete sample data for witnesses and counterexamples.
-/

/-- A list-response body with `ok = true` and no entries. -/
def emptyOkJson : Json := Json.obj [("ok", Json.bool true), ("value", Json.arr [])]

/-- A list-response body with `ok = false` and no entries. -/
def emptyNotOkJson : Json := Json.obj [("ok", Json.bool false), ("value", Json.arr [])]

/-- A store-response body with cid `bafy1`. -/
def storeOkJson : Json :=
  Json.obj [("ok", Json.bool true), ("value", Json.obj [("cid", Json.str "bafy1")])]

/-!
Claim theorems.
-/

/-- Claim C7 (amended): for the response types carrying the container
attribute `#[serde(default)]` — `ListNftResponse`, `Value`,
`CheckNFTValue`, `Pin`, `Files` — every field absent from the JSON
object defaults to its empty/zero value, so the empty object decodes to
the all-default record (and a partial object fills only the given
fields); for the types without the attribute — `StoreNftResponse`,
`GetNftResponse`, `DeleteNftResponse`, `CheckCidNftResponse`, `Deals` —
an absent field makes the decode fail instead. -/
theorem decode_default_behaviour :
    ListNftResponse.decode (Json.obj []) = some ⟨false, []⟩
    ∧ Value.decode (Json.obj []) = some Value.default
    ∧ CheckNFTValue.decode (Json.obj []) = some CheckNFTValue.default
    ∧ Pin.decode (Json.obj []) = some Pin.default
    ∧ Files.decode (Json.obj []) = some Files.default
    ∧ Value.decode (Json.obj [("cid", Json.str "x")])
        = some { Value.default with cid := "x" }
    ∧ StoreNftResponse.decode (Json.obj []) = none
    ∧ GetNftResponse.decode (Json.obj []) = none
    ∧ DeleteNftResponse.decode (Json.obj []) = none
    ∧ CheckCidNftResponse.decode (Json.obj []) = none
    ∧ Deals.decode (Json.obj []) = none :=
  ⟨rfl, rfl, rfl, rfl, rfl, rfl, rfl, rfl, rfl, rfl, rfl⟩

/-- Claim C7, counterexample: `StoreNftResponse` does not carry
`#[serde(default)]`, so a 2xx body `{"ok": true}` with the `value` field
absent fails to decode instead of defaulting the missing field; the
claim's defaulting does not hold for all response record types. -/
theorem decode_missing_field_fails :
    StoreNftResponse.decode (Json.obj [("ok", Json.bool true)]) = none
    ∧ (StoreNftResponse.decode (Json.obj [("ok", Json.bool true)])).isSome = false :=
  ⟨rfl, rfl⟩

/-- Claim C2 (amended): for every operation and every response whose
status is outside the 2xx range and whose body is well-formed JSON
parsing to `j`, the call returns `NFTStorageError.ApiError j` — the
exact parsed response body (for `upload_file_in_directory`, provided the
file-name list is long enough to avoid the indexing panic).  When the
non-2xx body is not well-formed JSON, `Response::json::<Value>()?` fails
first and the call returns the transport variant instead (see the
counterexample). -/
theorem non2xx_returns_apiError :
    (∀ (c : NftStorage) (b l : Option String) (m : Bool) (s : Nat) (j : Json)
        (t : List NetEvent), statusIsSuccess s = false →
      (list_all_stored_nft c b l m (.response ⟨s, some j⟩ :: t)).res
        = .error (.ApiError j))
    ∧ (∀ (c : NftStorage) (file : Bytes) (s : Nat) (j : Json) (t : List NetEvent),
        statusIsSuccess s = false →
      (upload_file c file (.response ⟨s, some j⟩ :: t)).res = .error (.ApiError j))
    ∧ (∀ (c : NftStorage) (files : List Bytes) (names : List String) (s : Nat) (j : Json)
        (t : List NetEvent), files.length ≤ names.length → statusIsSuccess s = false →
      (upload_file_in_directory c files names (.response ⟨s, some j⟩ :: t)).map
        (fun r => r.res) = some (.error (.ApiError j)))
    ∧ (∀ (c : NftStorage) (cid : String) (s : Nat) (j : Json) (t : List NetEvent),
        statusIsSuccess s = false →
      (get_nft c cid (.response ⟨s, some j⟩ :: t)).res = .error (.ApiError j))
    ∧ (∀ (c : NftStorage) (cid : String) (s : Nat) (j : Json) (t : List NetEvent),
        statusIsSuccess s = false →
      (delete_nft c cid (.response ⟨s, some j⟩ :: t)).res = .error (.ApiError j))
    ∧ (∀ (c : NftStorage) (cid : String) (s : Nat) (j : Json) (t : List NetEvent),
        statusIsSuccess s = false →
      (check_nft c cid (.response ⟨s, some j⟩ :: t)).res = .error (.ApiError j)) := by
  refine ⟨?_, ?_, ?_, ?_, ?_, ?_⟩
  · intro c b l m s j t h
    rw [list_res_eq]
    simp [takeEvent, responseResult_apiError _ _ _ h]
  · intro c file s j t h
    simp [upload_file, runRequest_res, takeEvent, responseResult_apiError _ _ _ h]
  · intro c files names s j t hlen h
    rcases hb : buildForm files names with _ | parts
    · rw [buildForm_none_iff] at hb
      omega
    · simp [upload_file_in_directory, hb, runRequest_res, takeEvent,
        responseResult_apiError _ _ _ h]
  · intro c cid s j t h
    rw [get_res_eq]
    simp [takeEvent, responseResult_apiError _ _ _ h]
  · intro c cid s j t h
    simp [delete_nft, runRequest_res, takeEvent, responseResult_apiError _ _ _ h]
  · intro c cid s j t h
    simp [check_nft, runRequest_res, takeEvent, responseResult_apiError _ _ _ h]

/-- Claim C2 witness: at status 404 with parsed body `"err"`, each
operation returns `ApiError "err"`. -/
theorem non2xx_returns_apiError_witness :
    statusIsSuccess 404 = false
    ∧ (2 : Nat) ≤ 2
    ∧ (list_all_stored_nft c0 none none false
        [.response ⟨404, some (Json.str "err")⟩]).res = .error (.ApiError (Json.str "err"))
    ∧ (upload_file c0 "IMG" [.response ⟨404, some (Json.str "err")⟩]).res
        = .error (.ApiError (Json.str "err"))
    ∧ (upload_file_in_directory c0 ["A", "B"] ["a.png", "b.png"]
        [.response ⟨404, some (Json.str "err")⟩]).map (fun r => r.res)
        = some (.error (.ApiError (Json.str "err")))
    ∧ (get_nft c0 "bafy1" [.response ⟨404, some (Json.str "err")⟩]).res
        = .error (.ApiError (Json.str "err"))
    ∧ (delete_nft c0 "bafy1" [.response ⟨404, some (Json.str "err")⟩]).res
        = .error (.ApiError (Json.str "err"))
    ∧ (check_nft c0 "bafy1" [.response ⟨404, some (Json.str "err")⟩]).res
        = .error (.ApiError (Json.str "err")) :=
  ⟨rfl, by omega,
   non2xx_returns_apiError.1 c0 none none false 404 (Json.str "err") [] rfl,
   non2xx_returns_apiError.2.1 c0 "IMG" 404 (Json.str "err") [] rfl,
   non2xx_returns_apiError.2.2.1 c0 ["A", "B"] ["a.png", "b.png"] 404 (Json.str "err") []
     (by simp) rfl,
   non2xx_returns_apiError.2.2.2.1 c0 "bafy1" 404 (Json.str "err") [] rfl,
   non2xx_returns_apiError.2.2.2.2.1 c0 "bafy1" 404 (Json.str "err") [] rfl,
   non2xx_returns_apiError.2.2.2.2.2 c0 "bafy1" 404 (Json.str "err") [] rfl⟩

/-- Claim C2, counterexample: a non-2xx (status 500) response whose body
is not well-formed JSON makes `response.json::<Value>().await?` fail
with a `reqwest::Error`, so the call returns `InvalidRequest`, not the
API-error variant with the body attached. -/
theorem non2xx_malformed_body_not_apiError :
    (upload_file c0 "IMG" [NetEvent.response ⟨500, none⟩]).res
      = .error (.InvalidRequest .decodeError)
    ∧ isApiError (upload_file c0 "IMG" [NetEvent.response ⟨500, none⟩]).res = false :=
  ⟨rfl, rfl⟩

/-- Claim C3 (amended): for every operation, a 2xx response whose body is
well-formed JSON but does not decode into the operation's typed response
returns `NFTStorageError.InvalidJson` (the `serde_json::from_value`
error); a 2xx response whose body is not well-formed JSON instead fails
inside `Response::json::<Value>()?` with a `reqwest::Error`, surfacing
as the transport variant `InvalidRequest`, not `InvalidJson` (last
conjunct and counterexample). -/
theorem malformed_2xx_returns_invalidJson :
    (∀ (c : NftStorage) (b l : Option String) (m : Bool) (s : Nat) (j : Json)
        (t : List NetEvent), statusIsSuccess s = true → ListNftResponse.decode j = none →
      (list_all_stored_nft c b l m (.response ⟨s, some j⟩ :: t)).res
        = .error (.InvalidJson .dataError))
    ∧ (∀ (c : NftStorage) (file : Bytes) (s : Nat) (j : Json) (t : List NetEvent),
        statusIsSuccess s = true → StoreNftResponse.decode j = none →
      (upload_file c file (.response ⟨s, some j⟩ :: t)).res
        = .error (.InvalidJson .dataError))
    ∧ (∀ (c : NftStorage) (files : List Bytes) (names : List String) (s : Nat) (j : Json)
        (t : List NetEvent), files.length ≤ names.length →
        statusIsSuccess s = true → StoreNftResponse.decode j = none →
      (upload_file_in_directory c files names (.response ⟨s, some j⟩ :: t)).map
        (fun r => r.res) = some (.error (.InvalidJson .dataError)))
    ∧ (∀ (c : NftStorage) (cid : String) (s : Nat) (j : Json) (t : List NetEvent),
        statusIsSuccess s = true → GetNftResponse.decode j = none →
      (get_nft c cid (.response ⟨s, some j⟩ :: t)).res = .error (.InvalidJson .dataError))
    ∧ (∀ (c : NftStorage) (cid : String) (s : Nat) (j : Json) (t : List NetEvent),
        statusIsSuccess s = true → DeleteNftResponse.decode j = none →
      (delete_nft c cid (.response ⟨s, some j⟩ :: t)).res = .error (.InvalidJson .dataError))
    ∧ (∀ (c : NftStorage) (cid : String) (s : Nat) (j : Json) (t : List NetEvent),
        statusIsSuccess s = true → CheckCidNftResponse.decode j = none →
      (check_nft c cid (.response ⟨s, some j⟩ :: t)).res = .error (.InvalidJson .dataError))
    ∧ (∀ (c : NftStorage) (file : Bytes) (s : Nat) (t : List NetEvent),
      (upload_file c file (.response ⟨s, none⟩ :: t)).res
        = .error (.InvalidRequest .decodeError)) := by
  refine ⟨?_, ?_, ?_, ?_, ?_, ?_, ?_⟩
  · intro c b l m s j t hs hd
    rw [list_res_eq]
    simp [takeEvent, responseResult_invalidJson _ _ _ hs hd]
  · intro c file s j t hs hd
    simp [upload_file, runRequest_res, takeEvent, responseResult_invalidJson _ _ _ hs hd]
  · intro c files names s j t hlen hs hd
    rcases hb : buildForm files names with _ | parts
    · rw [buildForm_none_iff] at hb
      omega
    · simp [upload_file_in_directory, hb, runRequest_res, takeEvent,
        responseResult_invalidJson _ _ _ hs hd]
  · intro c cid s j t hs hd
    rw [get_res_eq]
    simp [takeEvent, responseResult_invalidJson _ _ _ hs hd]
  · intro c cid s j t hs hd
    simp [delete_nft, runRequest_res, takeEvent, responseResult_invalidJson _ _ _ hs hd]
  · intro c cid s j t hs hd
    simp [check_nft, runRequest_res, takeEvent, responseResult_invalidJson _ _ _ hs hd]
  · intro c file s t
    simp [upload_file, runRequest_res, takeEvent, responseResult_noJson]

/-- Claim C3 witness: at status 200 with body `0` (well-formed JSON that
matches no response type), each operation returns `InvalidJson`; a 200
response with a non-JSON body returns `InvalidRequest`. -/
theorem malformed_2xx_returns_invalidJson_witness :
    statusIsSuccess 200 = true
    ∧ ListNftResponse.decode (Json.num 0) = none
    ∧ (list_all_stored_nft c0 none none false [.response ⟨200, some (Json.num 0)⟩]).res
        = .error (.InvalidJson .dataError)
    ∧ (upload_file c0 "IMG" [.response ⟨200, some (Json.num 0)⟩]).res
        = .error (.InvalidJson .dataError)
    ∧ (upload_file_in_directory c0 ["A"] ["a.png"]
        [.response ⟨200, some (Json.num 0)⟩]).map (fun r => r.res)
        = some (.error (.InvalidJson .dataError))
    ∧ (get_nft c0 "bafy1" [.response ⟨200, some (Json.num 0)⟩]).res
        = .error (.InvalidJson .dataError)
    ∧ (delete_nft c0 "bafy1" [.response ⟨200, some (Json.num 0)⟩]).res
        = .error (.InvalidJson .dataError)
    ∧ (check_nft c0 "bafy1" [.response ⟨200, some (Json.num 0)⟩]).res
        = .error (.InvalidJson .dataError)
    ∧ (upload_file c0 "IMG" [.response ⟨200, none⟩]).res
        = .error (.InvalidRequest .decodeError) :=
  ⟨rfl, rfl,
   malformed_2xx_returns_invalidJson.1 c0 none none false 200 (Json.num 0) [] rfl rfl,
   malformed_2xx_returns_invalidJson.2.1 c0 "IMG" 200 (Json.num 0) [] rfl rfl,
   malformed_2xx_returns_invalidJson.2.2.1 c0 ["A"] ["a.png"] 200 (Json.num 0) []
     (by simp) rfl rfl,
   malformed_2xx_returns_invalidJson.2.2.2.1 c0 "bafy1" 200 (Json.num 0) [] rfl rfl,
   malformed_2xx_returns_invalidJson.2.2.2.2.1 c0 "bafy1" 200 (Json.num 0) [] rfl rfl,
   malformed_2xx_returns_invalidJson.2.2.2.2.2.1 c0 "bafy1" 200 (Json.num 0) [] rfl rfl,
   malformed_2xx_returns_invalidJson.2.2.2.2.2.2 c0 "IMG" 200 []⟩

/-- Claim C3, counterexample: a 2xx response whose body is not
well-formed JSON does not return the JSON-decode-error variant: it
returns the transport variant `InvalidRequest` (the error is raised by
`Response::json` inside reqwest, converted by `#[from] reqwest::Error`). -/
theorem malformed_2xx_not_invalidJson :
    (upload_file c0 "IMG" [NetEvent.response ⟨200, none⟩]).res
      = .error (.InvalidRequest .decodeError)
    ∧ isInvalidJson (upload_file c0 "IMG" [NetEvent.response ⟨200, none⟩]).res = false :=
  ⟨rfl, rfl⟩

/-- Claim C4: with `only_metadata` set, `list_all_stored_nft` keeps
exactly the decoded entries whose files array is non-empty and whose
first file is named `metadata.json` (each decorated with the metadata
links); every other entry is removed.  The second conjunct shows the
filter predicate is exactly "non-empty files and first file named
metadata.json". -/
theorem list_only_metadata_filters :
    (∀ (c : NftStorage) (b l : Option String) (s : Nat) (j : Json) (t : List NetEvent)
        (body : ListNftResponse), statusIsSuccess s = true →
        ListNftResponse.decode j = some body →
      (list_all_stored_nft c b l true (.response ⟨s, some j⟩ :: t)).res
        = .ok ⟨body.ok, (body.value.filter isMetadataEntry).map withMetadataLinks⟩)
    ∧ (∀ f : Value, isMetadataEntry f = true ↔
        ∃ f0 fs, f.files = f0 :: fs ∧ f0.name = "metadata.json") := by
  constructor
  · intro c b l s j t body hs hd
    rw [list_res_eq]
    simp [takeEvent, responseResult_ok _ _ _ _ hs hd]
  · intro f
    unfold isMetadataEntry
    rcases hf : f.files with _ | ⟨f0, fs⟩ <;> simp [hf]

/-- A metadata entry as decoded from `listTwoJson`. -/
def bafyMEntry : Value :=
  { Value.default with cid := "bafyM", files := [⟨"metadata.json", ""⟩] }

/-- A plain-file entry as decoded from `listTwoJson`. -/
def bafyOEntry : Value :=
  { Value.default with cid := "bafyO", files := [⟨"pic.png", ""⟩] }

/-- A list-response body with one metadata entry and one plain entry. -/
def listTwoJson : Json :=
  Json.obj [("ok", Json.bool true),
    ("value", Json.arr
      [Json.obj [("cid", Json.str "bafyM"),
        ("files", Json.arr [Json.obj [("name", Json.str "metadata.json")]])],
       Json.obj [("cid", Json.str "bafyO"),
        ("files", Json.arr [Json.obj [("name", Json.str "pic.png")]])]])]

/-- The decoded form of `listTwoJson`. -/
def listTwoBody : ListNftResponse := ⟨true, [bafyMEntry, bafyOEntry]⟩

/-- Claim C4 witness: a page with one metadata entry and one plain file
entry keeps exactly the metadata entry. -/
theorem list_only_metadata_filters_witness :
    statusIsSuccess 200 = true
    ∧ ListNftResponse.decode listTwoJson = some listTwoBody
    ∧ (list_all_stored_nft c0 none none true [.response ⟨200, some listTwoJson⟩]).res
        = .ok ⟨listTwoBody.ok,
            (listTwoBody.value.filter isMetadataEntry).map withMetadataLinks⟩
    ∧ (listTwoBody.value.filter isMetadataEntry).map withMetadataLinks
        = [withMetadataLinks bafyMEntry] :=
  ⟨rfl, rfl,
   list_only_metadata_filters.1 c0 none none 200 listTwoJson [] listTwoBody rfl rfl,
   rfl⟩

/-- Claim C5: every entry returned by `list_all_stored_nft` has its link
field set to exactly the three URLs derived from its cid — the dweb.link
gateway URL, the ipfs.io gateway URL and the `ipfs://` URL, with
`/metadata.json` appended when `only_metadata` was requested — and the
entry returned by `get_nft` likewise; any server-sent link value is
overwritten. -/
theorem derived_convenience_links :
    (∀ (c : NftStorage) (b l : Option String) (t : List NetEvent) (out : ListNftResponse),
      (list_all_stored_nft c b l true t).res = .ok out →
      ∀ f, f ∈ out.value → f.link =
        ["https://" ++ f.cid ++ ".ipfs.dweb.link/metadata.json",
         "https://ipfs.io/ipfs/" ++ f.cid ++ "/metadata.json",
         "ipfs://" ++ f.cid ++ "/metadata.json"])
    ∧ (∀ (c : NftStorage) (b l : Option String) (t : List NetEvent) (out : ListNftResponse),
      (list_all_stored_nft c b l false t).res = .ok out →
      ∀ f, f ∈ out.value → f.link =
        ["https://" ++ f.cid ++ ".ipfs.dweb.link",
         "https://ipfs.io/ipfs/" ++ f.cid,
         "ipfs://" ++ f.cid])
    ∧ (∀ (c : NftStorage) (cid : String) (t : List NetEvent) (out : GetNftResponse),
      (get_nft c cid t).res = .ok out →
      out.value.link =
        ["https://" ++ out.value.cid ++ ".ipfs.dweb.link",
         "https://ipfs.io/ipfs/" ++ out.value.cid,
         "ipfs://" ++ out.value.cid]) := by
  refine ⟨?_, ?_, ?_⟩
  · intro c b l t out h
    rw [list_res_eq] at h
    split at h
    · simp at h
    · simp at h
      subst h
      intro f hf
      simp only [List.mem_map] at hf
      obtain ⟨g, hg, rfl⟩ := hf
      simp [withMetadataLinks]
  · intro c b l t out h
    rw [list_res_eq] at h
    split at h
    · simp at h
    · simp at h
      subst h
      intro f hf
      simp only [List.mem_map] at hf
      obtain ⟨g, hg, rfl⟩ := hf
      simp [withPlainLinks]
  · intro c cid t out h
    rw [get_res_eq] at h
    split at h
    · simp at h
    · simp at h
      subst h
      simp [withPlainLinks]

/-- The entry of `storeOkJson` decorated by `get_nft`. -/
def bafy1GotValue : Value := withPlainLinks { Value.default with cid := "bafy1" }

/-- Claim C5 witness: the convenience links at concrete responses. -/
theorem derived_convenience_links_witness :
    (list_all_stored_nft c0 none none true [.response ⟨200, some listTwoJson⟩]).res
      = .ok ⟨true, [withMetadataLinks bafyMEntry]⟩
    ∧ (withMetadataLinks bafyMEntry ∈ [withMetadataLinks bafyMEntry])
    ∧ (withMetadataLinks bafyMEntry).link =
        ["https://" ++ (withMetadataLinks bafyMEntry).cid ++ ".ipfs.dweb.link/metadata.json",
         "https://ipfs.io/ipfs/" ++ (withMetadataLinks bafyMEntry).cid ++ "/metadata.json",
         "ipfs://" ++ (withMetadataLinks bafyMEntry).cid ++ "/metadata.json"]
    ∧ (get_nft c0 "bafy1" [.response ⟨200, some storeOkJson⟩]).res
      = .ok ⟨true, bafy1GotValue⟩
    ∧ (⟨true, bafy1GotValue⟩ : GetNftResponse).value.link =
        ["https://" ++ (⟨true, bafy1GotValue⟩ : GetNftResponse).value.cid ++ ".ipfs.dweb.link",
         "https://ipfs.io/ipfs/" ++ (⟨true, bafy1GotValue⟩ : GetNftResponse).value.cid,
         "ipfs://" ++ (⟨true, bafy1GotValue⟩ : GetNftResponse).value.cid] :=
  ⟨rfl, by simp,
   derived_convenience_links.1 c0 none none [.response ⟨200, some listTwoJson⟩]
     ⟨true, [withMetadataLinks bafyMEntry]⟩ rfl (withMetadataLinks bafyMEntry) (by simp),
   rfl,
   derived_convenience_links.2.2 c0 "bafy1" [.response ⟨200, some storeOkJson⟩]
     ⟨true, bafy1GotValue⟩ rfl⟩

/-- Claim C9: `upload_file_in_directory` (and hence
`store_nft_in_directory`) requires `file_names` to be at least as long
as `files`: the form-building loop indexes `file_names[index]` for every
index of `files` without a bounds check, so a shorter `file_names`
panics (modelled by `none`) instead of returning an error; under the
precondition `files.length ≤ file_names.length` the indexing is always
in bounds and the call proceeds. -/
theorem upload_dir_requires_file_names :
    (∀ (c : NftStorage) (files : List Bytes) (names : List String) (t : List NetEvent),
      names.length < files.length → upload_file_in_directory c files names t = none)
    ∧ (∀ (c : NftStorage) (files : List Bytes) (names : List String)
        (nft_name description : String) (t : List NetEvent),
      names.length < files.length →
      store_nft_in_directory c files names nft_name description t = none)
    ∧ (∀ (c : NftStorage) (files : List Bytes) (names : List String) (t : List NetEvent),
      files.length ≤ names.length →
      (upload_file_in_directory c files names t).isSome = true)
    ∧ (∀ (c : NftStorage) (files : List Bytes) (names : List String)
        (nft_name description : String) (t : List NetEvent),
      files.length ≤ names.length →
      (store_nft_in_directory c files names nft_name description t).isSome = true) := by
  refine ⟨?_, ?_, ?_, ?_⟩
  · intro c files names t h
    simp [upload_file_in_directory, buildForm_none_of_lt files names h]
  · intro c files names nft_name description t h
    simp [store_nft_in_directory, upload_file_in_directory,
      buildForm_none_of_lt files names h]
  · intro c files names t h
    have hb' := buildForm_isSome_of_le files names h
    rcases hb : buildForm files names with _ | parts
    · rw [hb] at hb'
      simp at hb'
    · simp [upload_file_in_directory, hb]
  · intro c files names nft_name description t h
    have hb' := buildForm_isSome_of_le files names h
    rcases hb : buildForm files names with _ | parts
    · rw [hb] at hb'
      simp at hb'
    · simp only [store_nft_in_directory, upload_file_in_directory, hb]
      split
      · simp
      · simp [buildForm]

/-- Claim C9 witness: two files with one name panic; one file with two
names is in bounds for both the plain and the composed directory upload. -/
theorem upload_dir_requires_file_names_witness :
    ([("x" : String)].length < ([("a" : Bytes), "b"]).length)
    ∧ upload_file_in_directory c0 ["a", "b"] ["x"] [] = none
    ∧ store_nft_in_directory c0 ["a", "b"] ["x"] "N" "D" [] = none
    ∧ (([("a" : Bytes)]).length ≤ ([("x" : String), "y"]).length)
    ∧ (upload_file_in_directory c0 ["a"] ["x", "y"] []).isSome = true
    ∧ (store_nft_in_directory c0 ["a"] ["x", "y"] "N" "D" []).isSome = true :=
  ⟨by simp,
   upload_dir_requires_file_names.1 c0 ["a", "b"] ["x"] [] (by simp),
   upload_dir_requires_file_names.2.1 c0 ["a", "b"] ["x"] "N" "D" [] (by simp),
   by simp,
   upload_dir_requires_file_names.2.2.1 c0 ["a"] ["x", "y"] [] (by simp),
   upload_dir_requires_file_names.2.2.2 c0 ["a"] ["x", "y"] "N" "D" [] (by simp)⟩

/-- Claim C10: whenever `delete_all_nft` returns successfully its value
is the locally built `DeleteNftResponse { ok: true }`, independent of
the `ok` flags or bodies of the individual list and delete responses of
the trace. -/
theorem delete_all_nft_ok_true (c : NftStorage) (t : List NetEvent)
    (r : DeleteNftResponse) (h : (delete_all_nft c t).res = .ok r) : r = ⟨true⟩ :=
  delete_all_go_ok (t.length + 1) c t r h

/-- Claim C10 witness: a single ok-and-empty list page makes
`delete_all_nft` return `{ ok: true }`. -/
theorem delete_all_nft_ok_true_witness :
    (delete_all_nft c0 [NetEvent.response ⟨200, some emptyOkJson⟩]).res
      = .ok (⟨true⟩ : DeleteNftResponse)
    ∧ (⟨true⟩ : DeleteNftResponse) = ⟨true⟩ :=
  ⟨rfl, delete_all_nft_ok_true c0 [NetEvent.response ⟨200, some emptyOkJson⟩] ⟨true⟩ rfl⟩

/-- Claim C8: the client handle is read-only: every operation takes the
handle by shared reference and returns it unchanged — the HTTP client
instance, base URL and bearer token after any call (including the
composed and looping operations) are those of the handle before it. -/
theorem client_handle_readonly :
    (∀ (c : NftStorage) (b l : Option String) (m : Bool) (t : List NetEvent),
      (list_all_stored_nft c b l m t).handle = c)
    ∧ (∀ (c : NftStorage) (file : Bytes) (t : List NetEvent),
      (upload_file c file t).handle = c)
    ∧ (∀ (c : NftStorage) (files : List Bytes) (names : List String) (t : List NetEvent),
      (upload_file_in_directory c files names t).elim True (fun r => r.handle = c))
    ∧ (∀ (c : NftStorage) (cid : String) (t : List NetEvent),
      (get_nft c cid t).handle = c)
    ∧ (∀ (c : NftStorage) (cid : String) (t : List NetEvent),
      (delete_nft c cid t).handle = c)
    ∧ (∀ (c : NftStorage) (cid : String) (t : List NetEvent),
      (check_nft c cid t).handle = c)
    ∧ (∀ (c : NftStorage) (file : Bytes) (nft_name description : String)
        (t : List NetEvent), (store_nft c file nft_name description t).handle = c)
    ∧ (∀ (c : NftStorage) (files : List Bytes) (names : List String)
        (nft_name description : String) (t : List NetEvent),
      (store_nft_in_directory c files names nft_name description t).elim True
        (fun r => r.handle = c))
    ∧ (∀ (c : NftStorage) (t : List NetEvent), (delete_all_nft c t).handle = c) := by
  refine ⟨list_handle, ?_, ?_, get_handle, ?_, ?_, ?_, ?_, ?_⟩
  · intro c file t
    rfl
  · intro c files names t
    rcases hb : buildForm files names with _ | parts
    · simp [upload_file_in_directory, hb]
    · simp [upload_file_in_directory, hb, runRequest]
  · intro c cid t
    rfl
  · intro c cid t
    rfl
  · intro c file nft_name description t
    simp only [store_nft]
    split <;> rfl
  · intro c files names nft_name description t
    rcases hb : buildForm files names with _ | parts
    · simp [store_nft_in_directory, upload_file_in_directory, hb]
    · simp only [store_nft_in_directory, upload_file_in_directory, hb]
      split
      · simp [runRequest]
      · simp [buildForm, runRequest]
  · intro c t
    exact delete_all_go_handle (t.length + 1) c t

/-- Claim C1: `store_nft` issues exactly two uploads in sequence — the
given file bytes, then the serialized metadata object whose `files`
field is the cid of the first upload's response and whose `name` and
`description` fields are the caller's values — and returns the second
upload's result; `store_nft_in_directory` likewise issues exactly two
directory uploads, the second a single file named `metadata.json` whose
`files` field lists `ipfs://<first-upload-cid>/<file-name>` for each
file of the first upload's response. -/
theorem store_nft_two_uploads :
    (∀ (c : NftStorage) (file : Bytes) (nft_name description : String)
        (t : List NetEvent) (resp1 : StoreNftResponse),
      (upload_file c file t).res = .ok resp1 →
      store_nft c file nft_name description t =
        ⟨c,
         [⟨"POST", c.url ++ "/upload", c.token, .raw file⟩,
          ⟨"POST", c.url ++ "/upload", c.token,
            .raw (serdeJsonToVec (storeNftMetadata nft_name description resp1.value.cid))⟩],
         (upload_file c
           (serdeJsonToVec (storeNftMetadata nft_name description resp1.value.cid))
           t.tail).res,
         t.tail.tail⟩
      ∧ jsonLookup (storeNftMetadata nft_name description resp1.value.cid) "files"
          = some (.str resp1.value.cid)
      ∧ jsonLookup (storeNftMetadata nft_name description resp1.value.cid) "name"
          = some (.str nft_name)
      ∧ jsonLookup (storeNftMetadata nft_name description resp1.value.cid) "description"
          = some (.str description))
    ∧ (∀ (c : NftStorage) (files : List Bytes) (names : List String)
        (nft_name description : String) (t : List NetEvent)
        (r1 : RunResult StoreNftResponse) (resp1 : StoreNftResponse),
      upload_file_in_directory c files names t = some r1 → r1.res = .ok resp1 →
      store_nft_in_directory c files names nft_name description t =
        some ⟨c,
          r1.reqs ++ [⟨"POST", c.url ++ "/upload", c.token,
            .multipart [("metadata.json", serdeJsonToVec (storeNftDirMetadata nft_name
              description (resp1.value.files.map
                (fun f => "ipfs://" ++ resp1.value.cid ++ "/" ++ f.name))))]⟩],
          (runRequest c ⟨"POST", c.url ++ "/upload", c.token,
            .multipart [("metadata.json", serdeJsonToVec (storeNftDirMetadata nft_name
              description (resp1.value.files.map
                (fun f => "ipfs://" ++ resp1.value.cid ++ "/" ++ f.name))))]⟩
            StoreNftResponse.decode t.tail).res,
          t.tail.tail⟩
      ∧ jsonLookup (storeNftDirMetadata nft_name description (resp1.value.files.map
            (fun f => "ipfs://" ++ resp1.value.cid ++ "/" ++ f.name))) "files"
          = some (.arr ((resp1.value.files.map
              (fun f => "ipfs://" ++ resp1.value.cid ++ "/" ++ f.name)).map Json.str))) := by
  constructor
  · intro c file nft_name description t resp1 h
    refine ⟨?_, rfl, rfl, rfl⟩
    simp only [store_nft]
    rw [h]
    simp [upload_file, runRequest, takeEvent_snd]
  · intro c files names nft_name description t r1 resp1 h hr
    rcases hb : buildForm files names with _ | parts
    · rw [upload_file_in_directory] at h
      rw [hb] at h
      simp at h
    · rw [upload_file_in_directory] at h
      rw [hb] at h
      simp at h
      subst h
      refine ⟨?_, rfl⟩
      simp only [store_nft_in_directory, upload_file_in_directory, hb]
      rw [hr]
      simp [buildForm, runRequest, takeEvent_snd, List.map_map, Function.comp_def]

/-- Decoded store response used in the C1 witness. -/
def respW : StoreNftResponse := ⟨true, { Value.default with cid := "bafy1" }⟩

/-- One-upload trace used in the C1 witness. -/
def storeTrace : List NetEvent := [NetEvent.response ⟨200, some storeOkJson⟩]

/-- A directory-upload response body with cid `bafyDir` and one file. -/
def dirOkJson : Json :=
  Json.obj [("ok", Json.bool true),
    ("value", Json.obj [("cid", Json.str "bafyDir"),
      ("files", Json.arr [Json.obj [("name", Json.str "a.png")]])])]

/-- Decoded form of `dirOkJson`. -/
def respDirW : StoreNftResponse :=
  ⟨true, { Value.default with cid := "bafyDir", files := [⟨"a.png", ""⟩] }⟩

/-- One-upload trace used in the directory half of the C1 witness. -/
def dirTrace : List NetEvent := [NetEvent.response ⟨200, some dirOkJson⟩]

/-- The first directory upload of the C1 witness, as a run result. -/
def r1W : RunResult StoreNftResponse :=
  runRequest c0 ⟨"POST", c0.url ++ "/upload", c0.token, .multipart [("a.png", "A")]⟩
    StoreNftResponse.decode dirTrace

/-- Claim C1 witness: both composed stores at concrete inputs. -/
theorem store_nft_two_uploads_witness :
    (upload_file c0 "IMG" storeTrace).res = .ok respW
    ∧ (store_nft c0 "IMG" "N" "D" storeTrace =
        ⟨c0,
         [⟨"POST", c0.url ++ "/upload", c0.token, .raw "IMG"⟩,
          ⟨"POST", c0.url ++ "/upload", c0.token,
            .raw (serdeJsonToVec (storeNftMetadata "N" "D" respW.value.cid))⟩],
         (upload_file c0 (serdeJsonToVec (storeNftMetadata "N" "D" respW.value.cid))
           storeTrace.tail).res,
         storeTrace.tail.tail⟩
      ∧ jsonLookup (storeNftMetadata "N" "D" respW.value.cid) "files"
          = some (.str respW.value.cid)
      ∧ jsonLookup (storeNftMetadata "N" "D" respW.value.cid) "name"
          = some (.str "N")
      ∧ jsonLookup (storeNftMetadata "N" "D" respW.value.cid) "description"
          = some (.str "D"))
    ∧ upload_file_in_directory c0 ["A"] ["a.png"] dirTrace = some r1W
    ∧ r1W.res = .ok respDirW
    ∧ (store_nft_in_directory c0 ["A"] ["a.png"] "N" "D" dirTrace =
        some ⟨c0,
          r1W.reqs ++ [⟨"POST", c0.url ++ "/upload", c0.token,
            .multipart [("metadata.json", serdeJsonToVec (storeNftDirMetadata "N" "D"
              (respDirW.value.files.map
                (fun f => "ipfs://" ++ respDirW.value.cid ++ "/" ++ f.name))))]⟩],
          (runRequest c0 ⟨"POST", c0.url ++ "/upload", c0.token,
            .multipart [("metadata.json", serdeJsonToVec (storeNftDirMetadata "N" "D"
              (respDirW.value.files.map
                (fun f => "ipfs://" ++ respDirW.value.cid ++ "/" ++ f.name))))]⟩
            StoreNftResponse.decode dirTrace.tail).res,
          dirTrace.tail.tail⟩
      ∧ jsonLookup (storeNftDirMetadata "N" "D" (respDirW.value.files.map
            (fun f => "ipfs://" ++ respDirW.value.cid ++ "/" ++ f.name))) "files"
          = some (.arr ((respDirW.value.files.map
              (fun f => "ipfs://" ++ respDirW.value.cid ++ "/" ++ f.name)).map Json.str))) :=
  ⟨rfl,
   store_nft_two_uploads.1 c0 "IMG" "N" "D" storeTrace respW rfl,
   rfl, rfl,
   store_nft_two_uploads.2 c0 ["A"] ["a.png"] "N" "D" dirTrace r1W respDirW rfl rfl⟩

/-- Claim C6 (amended): `delete_all_nft` repeatedly lists stored items
with the fixed page parameters (`before` empty, `limit` 100) and deletes
each returned entry by its cid, and it terminates exactly when a list
call returns a decoded page with `ok = true` AND zero entries; a page
with zero entries but `ok = false` does not stop the loop (it issues the
next list call), and there is no other bound on the number of calls: the
result is independent of the fuel bound as soon as the fuel exceeds the
trace length. -/
theorem delete_all_loop_behaviour :
    (∀ (c : NftStorage) (t : List NetEvent),
      (delete_all_nft c t).reqs.head? = some (listRequestOf c none (some "100")))
    ∧ (listRequestOf c0 none (some "100")).url = "https://api.nft.storage/?before=&limit=100"
    ∧ (∀ (c : NftStorage) (s : Nat) (j : Json) (t : List NetEvent),
      statusIsSuccess s = true → ListNftResponse.decode j = some ⟨true, []⟩ →
      delete_all_nft c (.response ⟨s, some j⟩ :: t)
        = ⟨c, [listRequestOf c none (some "100")], .ok ⟨true⟩, t⟩)
    ∧ (∀ (c : NftStorage) (s : Nat) (j : Json) (t : List NetEvent),
      statusIsSuccess s = true → ListNftResponse.decode j = some ⟨false, []⟩ →
      delete_all_nft c (.response ⟨s, some j⟩ :: t)
        = ⟨(delete_all_nft c t).handle,
           listRequestOf c none (some "100") :: (delete_all_nft c t).reqs,
           (delete_all_nft c t).res, (delete_all_nft c t).rest⟩)
    ∧ (∀ (c : NftStorage) (t : List NetEvent) (fuel : Nat), t.length < fuel →
      delete_all_go c t fuel = delete_all_nft c t)
    ∧ (∀ (es : List Value) (c : NftStorage) (t : List NetEvent) (u : Unit),
      (delete_nft_each c es t).res = .ok u →
      (delete_nft_each c es t).reqs = es.map (fun e => deleteRequestOf c e.cid)) := by
  refine ⟨?_, rfl, ?_, ?_, ?_, delete_nft_each_ok_reqs⟩
  · intro c t
    simp only [delete_all_nft, delete_all_go]
    split
    · simp [list_reqs]
    · split
      · simp [list_reqs]
      · split <;> simp [list_reqs]
  · intro c s j t hs hd
    have hres : (list_all_stored_nft c none (some "100") false
        (NetEvent.response ⟨s, some j⟩ :: t)).res = .ok ⟨true, []⟩ := by
      rw [list_res_eq]
      simp [takeEvent, responseResult_ok _ _ _ _ hs hd]
    conv_lhs => rw [delete_all_nft]
    conv_lhs => rw [delete_all_go]
    rw [hres]
    simp [list_handle, list_reqs, list_rest]
  · intro c s j t hs hd
    have hres : (list_all_stored_nft c none (some "100") false
        (NetEvent.response ⟨s, some j⟩ :: t)).res = .ok ⟨false, []⟩ := by
      rw [list_res_eq]
      simp [takeEvent, responseResult_ok _ _ _ _ hs hd]
    conv_lhs => rw [delete_all_nft]
    conv_lhs => rw [delete_all_go]
    rw [hres]
    simp only [delete_nft_each]
    simp [list_handle, list_reqs, list_rest, delete_all_nft]
  · intro c t fuel h
    rw [delete_all_nft]
    exact delete_all_go_stable fuel c t (t.length + 1) h (by omega)

/-- Claim C6 witness: a 200 page decoding to `ok = true` with no entries
stops the loop immediately; a 200 page decoding to `ok = false` with no
entries issues the next list call; the fuel bound is irrelevant above
the trace length; an all-ok delete pass issues one delete per entry. -/
theorem delete_all_loop_behaviour_witness :
    statusIsSuccess 200 = true
    ∧ ListNftResponse.decode emptyOkJson = some ⟨true, []⟩
    ∧ delete_all_nft c0 [.response ⟨200, some emptyOkJson⟩]
        = ⟨c0, [listRequestOf c0 none (some "100")], .ok ⟨true⟩, []⟩
    ∧ ListNftResponse.decode emptyNotOkJson = some ⟨false, []⟩
    ∧ delete_all_nft c0 [.response ⟨200, some emptyNotOkJson⟩]
        = ⟨(delete_all_nft c0 []).handle,
           listRequestOf c0 none (some "100") :: (delete_all_nft c0 []).reqs,
           (delete_all_nft c0 []).res, (delete_all_nft c0 []).rest⟩
    ∧ ([] : List NetEvent).length < 7
    ∧ delete_all_go c0 [] 7 = delete_all_nft c0 []
    ∧ (delete_nft_each c0 [bafyMEntry] [.response ⟨200, some emptyOkJson⟩]).res
        = .ok ()
    ∧ (delete_nft_each c0 [bafyMEntry] [.response ⟨200, some emptyOkJson⟩]).reqs
        = [bafyMEntry].map (fun e => deleteRequestOf c0 e.cid) :=
  ⟨rfl, rfl,
   delete_all_loop_behaviour.2.2.1 c0 200 emptyOkJson [] rfl rfl,
   rfl,
   delete_all_loop_behaviour.2.2.2.1 c0 200 emptyNotOkJson [] rfl rfl,
   by simp,
   delete_all_loop_behaviour.2.2.2.2.1 c0 [] 7 (by simp),
   rfl,
   delete_all_loop_behaviour.2.2.2.2.2 [bafyMEntry] c0
     [.response ⟨200, some emptyOkJson⟩] () rfl⟩

/-- Claim C6, counterexample: the loop does not terminate merely because
a list call returned zero entries — a 2xx page decoding to
`{ ok: false, value: [] }` has zero entries, yet the loop issues a
second list request (and, the trace being exhausted, ends in a
transport error rather than the terminating success). -/
theorem delete_all_zero_entries_not_ok_continues :
    ListNftResponse.decode emptyNotOkJson = some ⟨false, []⟩
    ∧ (delete_all_nft c0 [NetEvent.response ⟨200, some emptyNotOkJson⟩]).reqs
        = [listRequestOf c0 none (some "100"), listRequestOf c0 none (some "100")]
    ∧ (delete_all_nft c0 [NetEvent.response ⟨200, some emptyNotOkJson⟩]).res
        = .error (.InvalidRequest .sendError) :=
  ⟨rfl, rfl, rfl⟩

/-- Claim C8 witness: the handle after concrete calls is the handle
passed in. -/
theorem client_handle_readonly_witness :
    (upload_file c0 "IMG" storeTrace).handle = c0
    ∧ (delete_all_nft c0 [NetEvent.response ⟨200, some emptyOkJson⟩]).handle = c0 :=
  ⟨client_handle_readonly.2.1 c0 "IMG" storeTrace,
   client_handle_readonly.2.2.2.2.2.2.2.2 c0 [NetEvent.response ⟨200, some emptyOkJson⟩]⟩
